import Mathlib

/-!
Verification of the TicketGlass agent core (src/agent/core.py and
src/agent/keywords.py): a shallow embedding of the sentiment / tone /
repetition pipeline, with theorems checking the natural-language
specification against it.

Python floats are modelled by exact rationals (ℚ, built with `mkRat` so
that every value is kernel-computable): every overlap ratio the source can
produce is k/m for small integers, so the float comparisons of the source
agree with the rational ones (in particular `3/5 > 0.6` is false in both
models, the float `3/5` being bit-identical to the float literal `0.6`).
Python strings are modelled by Lean `String`; `str.lower()` by a
character-wise `Char.toLower` map, `needle in hay` by `hasSubstr`, and
`str.split()` by splitting on whitespace runs and discarding empty pieces.
All definitions are structural recursions so that concrete runs reduce in
the kernel.
-/

namespace TicketGlass

/-- Python substring membership `needle in hay`, on the character lists. -/
def containsSub (needle : List Char) : List Char → Bool
  | [] => needle.isEmpty
  | c :: rest => needle.isPrefixOf (c :: rest) || containsSub needle rest

/-- Python `needle in hay` for strings. -/
def hasSubstr (hay needle : String) : Bool :=
  containsSub needle.data hay.data

/-- Python `text.lower()` (character-wise lowering). -/
def pyLower (s : String) : String :=
  ⟨s.data.map Char.toLower⟩

/-- Splitting accumulator for `pyWords`: cut at every whitespace char. -/
def splitWsAux : List Char → List Char → List String
  | [], acc => [⟨acc.reverse⟩]
  | c :: cs, acc =>
    if c.isWhitespace then ⟨acc.reverse⟩ :: splitWsAux cs []
    else splitWsAux cs (c :: acc)

/-- Python `text.split()`: the maximal non-whitespace runs of the text
(split on whitespace, empty tokens discarded). -/
def pyWords (s : String) : List String :=
  (splitWsAux s.data []).filter (fun w => w ≠ "")

/-- `set(text.lower().split())` from `keyword_overlap_ratio`. -/
def wordSet (s : String) : Finset String :=
  (pyWords (pyLower s)).toFinset

/-- `HeuristicThresholds.REPETITION_OVERLAP_THRESHOLD = 0.6` (keywords.py);
the float 0.6 modelled as the exact rational 6/10. -/
def REPETITION_OVERLAP_THRESHOLD : ℚ := mkRat 6 10

/-- `HeuristicThresholds.CONTEXT_HISTORY_MAX_SIZE = 20` (keywords.py). -/
def CONTEXT_HISTORY_MAX_SIZE : Nat := 20

/-- `HeuristicThresholds.CONTEXT_HISTORY_TRUNCATE_TO = 15` (keywords.py). -/
def CONTEXT_HISTORY_TRUNCATE_TO : Nat := 15

/-- `keyword_overlap_ratio` (core.py lines 59-90): lower-case, split into
token sets, return 0.0 when either set is empty, else
`|A ∩ B| / max(|A|, |B|)` (the source also guards `max_len > 0`, which we
keep although it is unreachable past the emptiness test). -/
def keyword_overlap_ratio (text_a text_b : String) : ℚ :=
  let words_a := wordSet text_a
  let words_b := wordSet text_b
  if words_a = ∅ ∨ words_b = ∅ then 0
  else
    let overlap := (words_a ∩ words_b).card
    let max_len := max words_a.card words_b.card
    if max_len > 0 then mkRat overlap max_len else 0

/-- `Phase` enum (core.py lines 98-104). -/
inductive Phase where
  | RECEIVED
  | ASSIGNED
  | DIAGNOSED
  | RESOLVED
deriving DecidableEq, Fintype

/-- String values of the `Phase` enum members. -/
def Phase.value : Phase → String
  | .RECEIVED => "Received"
  | .ASSIGNED => "Assigned"
  | .DIAGNOSED => "Diagnosed"
  | .RESOLVED => "Resolved"

/-- `Sentiment` enum (core.py lines 107-113). -/
inductive Sentiment where
  | FRUSTRATED
  | SATISFIED
  | NEUTRAL
  | CONFUSED
deriving DecidableEq, Fintype

/-- String values of the `Sentiment` enum members. -/
def Sentiment.value : Sentiment → String
  | .FRUSTRATED => "frustrated"
  | .SATISFIED => "satisfied"
  | .NEUTRAL => "neutral"
  | .CONFUSED => "confused"

/-- `ToneApplied` enum (core.py lines 116-123). -/
inductive ToneApplied where
  | INITIAL
  | EMPATHETIC
  | ESCALATION
  | CELEBRATORY
  | SIMPLIFIED
deriving DecidableEq, Fintype

/-- `FRUSTRATED_KEYWORDS` (keywords.py lines 21-41); a Python set, modelled
as a list in source order (only membership/any is ever used, which is
order-insensitive). -/
def FRUSTRATED_KEYWORDS : List String :=
  ["frustrat", "angry", "mad", "upset", "ugh", "argh", "annoyed", "tired",
   "exasperat", "fed up", "enough", "seriously", "ridiculous", "unbelievable",
   "impossible", "broken", "doesn\x27t work", "still not working",
   "been trying all"]

/-- `SATISFIED_KEYWORDS` (keywords.py lines 44-62). -/
def SATISFIED_KEYWORDS : List String :=
  ["thanks", "thank you", "awesome", "great", "excellent", "perfect",
   "worked", "fixed", "solved", "finally", "yes", "yay", "fantastic",
   "amazing", "appreciated", "helpful", "exactly"]

/-- `CONFUSED_KEYWORDS` (keywords.py lines 65-81). -/
def CONFUSED_KEYWORDS : List String :=
  ["confus", "don\x27t understand", "what", "huh", "mean", "unclear", "lost",
   "explain", "again", "sorry", "confused", "not sure", "didn\x27t catch",
   "lost you", "slow down"]

/-- `any(word in feedback_lower for word in frustrated_keywords)`. -/
def frustratedMatch (feedback_lower : String) : Bool :=
  FRUSTRATED_KEYWORDS.any (fun w => hasSubstr feedback_lower w)

/-- `any(word in feedback_lower for word in satisfied_keywords)`. -/
def satisfiedMatch (feedback_lower : String) : Bool :=
  SATISFIED_KEYWORDS.any (fun w => hasSubstr feedback_lower w)

/-- `any(word in feedback_lower for word in confused_keywords)`. -/
def confusedMatch (feedback_lower : String) : Bool :=
  CONFUSED_KEYWORDS.any (fun w => hasSubstr feedback_lower w)

/-- `Agent._detect_sentiment` (core.py lines 386-430). `if not
latest_feedback` is Python truthiness: None and the empty string both take
the early-return branch. -/
def detect_sentiment (initial_sentiment : Sentiment)
    (latest_feedback : Option String) : Sentiment :=
  match latest_feedback with
  | none => initial_sentiment
  | some fb =>
    if fb = "" then initial_sentiment
    else
      let feedback_lower := pyLower fb
      if frustratedMatch feedback_lower then .FRUSTRATED
      else if satisfiedMatch feedback_lower then .SATISFIED
      else if confusedMatch feedback_lower then .CONFUSED
      else initial_sentiment

/-- `Agent._determine_tone` (core.py lines 432-460), rule order preserved. -/
def determine_tone (phase : Phase) (sentiment : Sentiment) : ToneApplied :=
  if phase = .RESOLVED then .CELEBRATORY
  else if sentiment = .FRUSTRATED then .EMPATHETIC
  else if sentiment = .CONFUSED then .SIMPLIFIED
  else if phase = .DIAGNOSED ∨ phase = .RESOLVED then .ESCALATION
  else .INITIAL

/-- The tone decision table exactly as written in spec section 4.3 (ordered
rule list, first match wins); a second definition following the
specification text, to be compared with `determine_tone`. -/
def selectTone_spec (phase : Phase) (sentiment : Sentiment) : ToneApplied :=
  if phase = .RESOLVED then .CELEBRATORY
  else if sentiment = .FRUSTRATED then .EMPATHETIC
  else if sentiment = .CONFUSED then .SIMPLIFIED
  else if phase = .DIAGNOSED ∨ phase = .RESOLVED then .ESCALATION
  else .INITIAL

/-- `ContextEntry` (core.py lines 131-150), data content only. -/
structure ContextEntry where
  phase : Nat
  timestamp : String
  what_we_said : String
  what_user_said_back : String
  our_reasoning : String
deriving DecidableEq

/-- `TicketState.validate_context_size` (core.py lines 170-181): lists
longer than the max are replaced by `v[-truncate_to:]`, i.e. the last 15
entries. -/
def validate_context_size (v : List ContextEntry) : List ContextEntry :=
  if v.length > CONTEXT_HISTORY_MAX_SIZE then
    v.drop (v.length - CONTEXT_HISTORY_TRUNCATE_TO)
  else v

/-- `Agent.validate_no_repetition` (core.py lines 656-696): false as soon as
one history entry's `what_we_said` has overlap strictly above the
threshold with the new summary, true otherwise (empty history passes). -/
def validate_no_repetition (new_summary : String)
    (context_history : List ContextEntry) : Bool :=
  if context_history = [] then true
  else context_history.all (fun entry =>
    !(decide (keyword_overlap_ratio new_summary entry.what_we_said >
               REPETITION_OVERLAP_THRESHOLD)))

/-- `TicketState` (core.py lines 153-181), after field validation; the
`validate_context_size` bound is applied when a state is built through
`TicketState.build` below. -/
structure TicketState where
  ticket_id : String
  user_name : String
  initial_issue : String
  current_phase : Phase
  context_history : List ContextEntry
  user_sentiment : Sentiment
  latest_user_feedback : Option String
deriving DecidableEq

/-- Pydantic construction of a `TicketState`: the `context_history`
validator replaces the supplied list by its truncation. -/
def TicketState.build (ticket_id user_name initial_issue : String)
    (current_phase : Phase) (context_history : List ContextEntry)
    (user_sentiment : Sentiment) (latest_user_feedback : Option String) :
    TicketState :=
  ⟨ticket_id, user_name, initial_issue, current_phase,
   validate_context_size context_history, user_sentiment,
   latest_user_feedback⟩

/-- Result of `Agent._extract_previous_attempts` (core.py lines 353-384). -/
structure PreviousAttempts where
  attempted_fixes : List String
  user_responses : List String
  escalations : List String
deriving DecidableEq

/-- `Agent._extract_previous_attempts` (core.py lines 353-384). -/
def extract_previous_attempts (context_history : List ContextEntry) :
    PreviousAttempts :=
  if context_history = [] then ⟨[], [], []⟩
  else
    ⟨context_history.map (fun e => e.what_we_said),
     context_history.map (fun e => e.what_user_said_back),
     (context_history.filter
        (fun e => hasSubstr (pyLower e.our_reasoning) ("escalat"))).map
       (fun e => e.our_reasoning)⟩

/-- The fixed instruction block appended by `_build_user_context`
(core.py lines 502-506). -/
def CRITICAL_INSTRUCTION : String :=
  "NEVER repeat the previous attempts above. If a fix didn\x27t work (user said so), move to a DIFFERENT approach. Show you\x27re listening."

/-- The numbered lines `f"{i}. {fix}"` (1-indexed) of `_build_user_context`. -/
def numberedLines (l : List String) : List String :=
  l.enum.map (fun p => toString (p.1 + 1) ++ ". " ++ p.2)

/-- The `context_parts` list assembled by `Agent._build_user_context`
(core.py lines 462-508), in source order of the appends. Python truthiness
again: the `Latest:` line is added only for a present, non-empty feedback,
and the two enumerated sections only for non-empty lists. Note that the
sentiment reported is `ticket.user_sentiment`, read from the input ticket,
not the sentiment refined by `_detect_sentiment`. -/
def context_parts (ticket : TicketState) (previous_attempts : PreviousAttempts) :
    List String :=
  ["User: " ++ ticket.user_name,
   "Issue: " ++ ticket.initial_issue,
   "Phase: " ++ ticket.current_phase.value]
  ++ (if previous_attempts.attempted_fixes = [] then []
      else "---PREVIOUS ATTEMPTS---" :: numberedLines previous_attempts.attempted_fixes)
  ++ (if previous_attempts.user_responses = [] then []
      else "---USER RESPONSES---" :: numberedLines previous_attempts.user_responses)
  ++ ["---USER SENTIMENT---", "Detected: " ++ ticket.user_sentiment.value]
  ++ (match ticket.latest_user_feedback with
      | some fb => if fb = "" then [] else ["Latest: \"" ++ fb ++ "\""]
      | none => [])
  ++ ["---CRITICAL---", CRITICAL_INSTRUCTION]

/-- `Agent._build_user_context` (core.py lines 462-508): the joined block. -/
def build_user_context (ticket : TicketState)
    (previous_attempts : PreviousAttempts) : String :=
  String.intercalate "\n" (context_parts ticket previous_attempts)

/-- What `Agent.process_ticket` (core.py lines 292-351) has computed right
before the external Bedrock call: extracted attempts, refined sentiment,
tone, and the context block handed to generation. -/
structure PrePipeline where
  previous_attempts : PreviousAttempts
  sentiment : Sentiment
  tone : ToneApplied
  parts : List String
  user_context : String
deriving DecidableEq

/-- Steps (a)-(d) of `Agent.process_ticket` (core.py lines 319-331): all
computation of the invocation up to (excluding) the external call. -/
def process_pre (ticket : TicketState) : PrePipeline :=
  let previous_attempts := extract_previous_attempts ticket.context_history
  let sentiment :=
    detect_sentiment ticket.user_sentiment ticket.latest_user_feedback
  let tone := determine_tone ticket.current_phase sentiment
  let parts := context_parts ticket previous_attempts
  ⟨previous_attempts, sentiment, tone, parts,
   String.intercalate "\n" parts⟩

/-- The single wrapped error type raised by `Agent._call_bedrock`
(core.py line 601): `RuntimeError(...) from e`, carrying the cause. -/
inductive AgentError where
  | generationFailed (cause : String) : AgentError
deriving DecidableEq

/-- `Agent._call_bedrock` (core.py lines 510-601). The external collaborator
is modelled as the stream `invoke_model` of replies it would give to the
0th, 1st, ... invocation of the same call; the source invokes it exactly
once (index 0) inside one try/except and wraps any failure. -/
def call_bedrock (invoke_model : Nat → Except String String)
    (_ticket : TicketState) (_user_context : String) (_tone : ToneApplied)
    (_sentiment : Sentiment) : Except AgentError String :=
  match invoke_model 0 with
  | .ok response_text => .ok response_text
  | .error e => .error (.generationFailed e)

/-- `AgentOutput` field data (core.py lines 184-216), before validation. -/
structure AgentOutputData where
  ticket_id : String
  phase : Phase
  summary : String
  reasoning : String
  next_step : String
  tone_applied : ToneApplied
  sentiment_detected : Sentiment
  user_learning_tip : Option String
  model_used : String
  timestamp : String
deriving DecidableEq

/-- The `max_length=250` constraint on `user_learning_tip`. -/
def tipLenOk : Option String → Bool
  | none => true
  | some tip => tip.length ≤ 250

/-- Pydantic construction of an `AgentOutput` (core.py lines 184-216):
field length constraints, then the `learning_tip_only_on_resolve`
validator, which rejects a non-null tip on any phase other than RESOLVED. -/
def mk_AgentOutput (d : AgentOutputData) : Except String AgentOutputData :=
  if ¬ (1 ≤ d.summary.length ∧ d.summary.length ≤ 500) then
    .error ("summary length out of bounds")
  else if ¬ (1 ≤ d.reasoning.length ∧ d.reasoning.length ≤ 300) then
    .error ("reasoning length out of bounds")
  else if ¬ (1 ≤ d.next_step.length ∧ d.next_step.length ≤ 300) then
    .error ("next_step length out of bounds")
  else if ¬ (tipLenOk d.user_learning_tip = true) then
    .error ("user_learning_tip length out of bounds")
  else if d.user_learning_tip.isSome = true ∧ d.phase ≠ Phase.RESOLVED then
    .error ("user_learning_tip should only be set on RESOLVED phase")
  else .ok d

/-- All constraints of `mk_AgentOutput` other than the Resolved-only tip
rule. -/
def otherFieldsValid (d : AgentOutputData) : Prop :=
  (1 ≤ d.summary.length ∧ d.summary.length ≤ 500)
  ∧ (1 ≤ d.reasoning.length ∧ d.reasoning.length ≤ 300)
  ∧ (1 ≤ d.next_step.length ∧ d.next_step.length ≤ 300)
  ∧ tipLenOk d.user_learning_tip = true

instance (d : AgentOutputData) : Decidable (otherFieldsValid d) := by
  unfold otherFieldsValid; infer_instance

/-- The history entry of the worked example in the spec (section 8): a prior
system text "Clear your DNS cache now". -/
def dnsHistoryEntry : ContextEntry :=
  ⟨1, "2025-10-18T09:00:00Z", "Clear your DNS cache now",
   "Tried it. Still broken.", "DNS cache is a common culprit"⟩

/-- A history entry whose `what_we_said` shares exactly 3 of 5 tokens with
the summary "a b c d e": overlap exactly 3/5 = 0.6. -/
def boundaryEntry : ContextEntry :=
  ⟨1, "2025-10-18T09:00:00Z", "a b c x y", "no luck", "first attempt"⟩

/-- A Diagnosed ticket whose only frustrated text sits in the context
history (`what_user_said_back`), with no `latest_user_feedback`. -/
def c2Ticket : TicketState :=
  ⟨"TKT-001", "Sarah", "WiFi will not connect", Phase.DIAGNOSED,
   [⟨1, "2025-10-18T09:00:00Z", "Let us clear your DNS cache",
     "still not working, this is ridiculous", "DNS fix attempt"⟩],
   Sentiment.NEUTRAL, none⟩

/-- The same Diagnosed ticket with the frustrated reply also supplied as
`latest_user_feedback`, as the orchestrator expects it. -/
def c2TicketAmended : TicketState :=
  ⟨"TKT-001", "Sarah", "WiFi will not connect", Phase.DIAGNOSED,
   [⟨1, "2025-10-18T09:00:00Z", "Let us clear your DNS cache",
     "still not working, this is ridiculous", "DNS fix attempt"⟩],
   Sentiment.NEUTRAL, some ("still not working, this is ridiculous")⟩

/-- A 25-entry context history with pairwise distinct entries. -/
def c5List : List ContextEntry :=
  (List.range 25).map
    (fun i => ⟨i + 1, "2025-10-18T09:00:00Z", "attempt", "reply", "reason"⟩)

/-- A fully valid Resolved output that carries a learning tip. -/
def c4Output : AgentOutputData :=
  ⟨"TKT-001", Phase.RESOLVED, "All fixed now.", "Driver reinstalled.",
   "Nothing further.", .CELEBRATORY, .SATISFIED, some ("Restart weekly."),
   "model-x", "2025-10-18T09:00:00Z"⟩

/-- A minimal ticket for exercising the generation-call wrapper. -/
def c9Ticket : TicketState :=
  ⟨"TKT-009", "Uma", "printer jam", .RECEIVED, [], .NEUTRAL, none⟩

/- ======================================================================
   Theorems
   ====================================================================== -/

/-- Claim C3: `_determine_tone` is exactly the first-match-wins rule list of
spec section 4.3: Resolved always yields celebratory (overriding any
sentiment, including frustrated); Diagnosed+neutral yields escalation;
Received+neutral yields initial; and on every non-Resolved phase a
frustrated sentiment yields empathetic and a confused one simplified,
before the Diagnosed-escalation rule is consulted. -/
theorem determine_tone_matches_spec :
    (∀ p s, determine_tone p s = selectTone_spec p s)
    ∧ (∀ s, determine_tone .RESOLVED s = .CELEBRATORY)
    ∧ determine_tone .DIAGNOSED .NEUTRAL = .ESCALATION
    ∧ determine_tone .RECEIVED .NEUTRAL = .INITIAL
    ∧ (∀ p, p ≠ Phase.RESOLVED →
        determine_tone p .FRUSTRATED = .EMPATHETIC
        ∧ determine_tone p .CONFUSED = .SIMPLIFIED) := by
  refine ⟨by decide, by decide, by decide, by decide, by decide⟩

/-- Concrete instantiation of `determine_tone_matches_spec` at the
Diagnosed phase. -/
theorem determine_tone_matches_spec_witness :
    determine_tone .DIAGNOSED .FRUSTRATED = .EMPATHETIC
    ∧ determine_tone .DIAGNOSED .CONFUSED = .SIMPLIFIED :=
  determine_tone_matches_spec.2.2.2.2 Phase.DIAGNOSED (by decide)

/-- Claim C6: sentiment detection tests the keyword sets in the fixed order
frustrated → satisfied → confused; any feedback matching both a frustrated
and a satisfied keyword resolves to frustrated, for every prior
sentiment. -/
theorem detect_sentiment_priority :
    ∀ (prior : Sentiment) (fb : String),
      frustratedMatch (pyLower fb) = true →
      satisfiedMatch (pyLower fb) = true →
      detect_sentiment prior (some fb) = .FRUSTRATED := by
  intro prior fb hf _hs
  by_cases hfb : fb = ""
  · subst hfb
    exact absurd hf (by decide)
  · simp only [detect_sentiment]
    rw [if_neg hfb, if_pos hf]

/-- Concrete instantiation of `detect_sentiment_priority` at the example
feedback of the spec ("this is so frustrating but thanks"). -/
theorem detect_sentiment_priority_witness :
    detect_sentiment .NEUTRAL (some ("this is so frustrating but thanks"))
      = .FRUSTRATED :=
  detect_sentiment_priority .NEUTRAL ("this is so frustrating but thanks")
    (by decide) (by decide)

/-- Claim C7: `_detect_sentiment` returns the prior sentiment unchanged when
the feedback is absent (None), empty, or matches no keyword of any of the
three categories. -/
theorem detect_sentiment_fallback :
    ∀ (prior : Sentiment),
      detect_sentiment prior none = prior
      ∧ detect_sentiment prior (some ("")) = prior
      ∧ ∀ fb : String,
          frustratedMatch (pyLower fb) = false →
          satisfiedMatch (pyLower fb) = false →
          confusedMatch (pyLower fb) = false →
          detect_sentiment prior (some fb) = prior := by
  intro prior
  refine ⟨rfl, by simp [detect_sentiment], ?_⟩
  intro fb h1 h2 h3
  by_cases hfb : fb = ""
  · subst hfb; simp [detect_sentiment]
  · simp only [detect_sentiment]
    rw [if_neg hfb, if_neg (by simp [h1]), if_neg (by simp [h2]),
        if_neg (by simp [h3])]

/-- Concrete instantiation of `detect_sentiment_fallback`: a satisfied
prior sentiment survives missing and keyword-free feedback. -/
theorem detect_sentiment_fallback_witness :
    detect_sentiment .SATISFIED none = .SATISFIED
    ∧ detect_sentiment .SATISFIED (some ("zzz")) = .SATISFIED :=
  ⟨(detect_sentiment_fallback .SATISFIED).1,
   (detect_sentiment_fallback .SATISFIED).2.2 ("zzz")
     (by decide) (by decide) (by decide)⟩

/-- Claim C5: `validate_context_size` truncates every list longer than the
maximum (20) to exactly its most recent 15 entries (a suffix, so relative
order is preserved and the oldest entries are discarded), and the validated
history always has length at most 20. -/
theorem validate_context_size_spec :
    ∀ (v : List ContextEntry),
      (v.length > CONTEXT_HISTORY_MAX_SIZE →
        validate_context_size v
          = v.drop (v.length - CONTEXT_HISTORY_TRUNCATE_TO)
        ∧ (validate_context_size v).length = CONTEXT_HISTORY_TRUNCATE_TO)
      ∧ (validate_context_size v).length ≤ CONTEXT_HISTORY_MAX_SIZE := by
  intro v
  constructor
  · intro h
    refine ⟨by simp [validate_context_size, h], ?_⟩
    simp only [validate_context_size, if_pos h, List.length_drop]
    simp only [CONTEXT_HISTORY_MAX_SIZE, CONTEXT_HISTORY_TRUNCATE_TO] at h ⊢
    omega
  · by_cases h : v.length > CONTEXT_HISTORY_MAX_SIZE
    · simp only [validate_context_size, if_pos h, List.length_drop]
      simp only [CONTEXT_HISTORY_MAX_SIZE, CONTEXT_HISTORY_TRUNCATE_TO] at h ⊢
      omega
    · simp only [validate_context_size, if_neg h]
      omega

/-- Concrete instantiation of `validate_context_size_spec`: a 25-entry
history is truncated to its last 15 entries. -/
theorem validate_context_size_spec_witness :
    validate_context_size c5List
      = c5List.drop (c5List.length - CONTEXT_HISTORY_TRUNCATE_TO)
    ∧ (validate_context_size c5List).length = CONTEXT_HISTORY_TRUNCATE_TO :=
  (validate_context_size_spec c5List).1 (by decide)

/-- Claim C4: with all other field constraints satisfied, constructing an
`AgentOutput` fails with the Resolved-only validation error exactly when
the phase is not Resolved and the learning tip is non-null; construction
succeeds iff the phase is Resolved or the tip is null. -/
theorem mk_AgentOutput_tip_rule :
    ∀ d : AgentOutputData, otherFieldsValid d →
      ((d.phase ≠ Phase.RESOLVED ∧ d.user_learning_tip ≠ none →
         mk_AgentOutput d
           = .error ("user_learning_tip should only be set on RESOLVED phase"))
       ∧ (mk_AgentOutput d = .ok d ↔
           (d.phase = Phase.RESOLVED ∨ d.user_learning_tip = none))) := by
  intro d hv
  obtain ⟨h1, h2, h3, h4⟩ := hv
  unfold mk_AgentOutput
  rw [if_neg (not_not_intro h1), if_neg (not_not_intro h2),
      if_neg (not_not_intro h3), if_neg (not_not_intro h4)]
  constructor
  · intro ⟨hp, ht⟩
    rw [if_pos ⟨Option.isSome_iff_ne_none.mpr ht, hp⟩]
  · by_cases hc : d.user_learning_tip.isSome = true ∧ d.phase ≠ Phase.RESOLVED
    · rw [if_pos hc]
      simp only [reduceCtorEq, false_iff]
      push_neg
      exact ⟨hc.2, Option.isSome_iff_ne_none.mp hc.1⟩
    · rw [if_neg hc]
      simp only [Except.ok.injEq, true_iff]
      push_neg at hc
      by_cases hs : d.user_learning_tip.isSome = true
      · exact Or.inl (hc hs)
      · exact Or.inr (Option.not_isSome_iff_eq_none.mp hs)

/-- Concrete instantiation of `mk_AgentOutput_tip_rule`: a valid Resolved
output with a non-null tip is accepted. -/
theorem mk_AgentOutput_tip_rule_witness :
    mk_AgentOutput c4Output = .ok c4Output :=
  (mk_AgentOutput_tip_rule c4Output (by decide)).2.mpr (Or.inl rfl)

/-- Claim C9: when the external generation call fails, `_call_bedrock`
produces exactly the single wrapped generation-failed error carrying the
original cause; and its result depends only on the first (index-0) reply of
the collaborator, i.e. no retry is consulted within the invocation. -/
theorem call_bedrock_failure :
    ∀ (invoke_model : Nat → Except String String) (t : TicketState)
      (ctx : String) (tone : ToneApplied) (s : Sentiment) (e : String),
      invoke_model 0 = .error e →
      (call_bedrock invoke_model t ctx tone s
         = .error (.generationFailed e)
       ∧ ∀ invoke_model2 : Nat → Except String String,
           invoke_model2 0 = invoke_model 0 →
           call_bedrock invoke_model2 t ctx tone s
             = call_bedrock invoke_model t ctx tone s) := by
  intro im t ctx tone s e h
  constructor
  · unfold call_bedrock; rw [h]
  · intro im2 h2; unfold call_bedrock; rw [h2]

/-- Concrete instantiation of `call_bedrock_failure` with an
always-failing collaborator. -/
theorem call_bedrock_failure_witness :
    call_bedrock (fun _ => .error ("socket closed")) c9Ticket ("ctx")
        .INITIAL .NEUTRAL
      = .error (.generationFailed ("socket closed")) :=
  (call_bedrock_failure (fun _ => .error ("socket closed")) c9Ticket ("ctx")
    .INITIAL .NEUTRAL ("socket closed") rfl).1

/-- Claim C8 (amended): texts with disjoint lower-cased token vocabularies
score 0.0, and identical texts whose token set is non-empty score 1.0. The
original claim spoke of identical non-empty *texts*; a non-empty text made
only of whitespace has an empty token set and scores 0.0, see the
counterexample. -/
theorem keyword_overlap_ratio_spec :
    ∀ a b : String,
      (wordSet a ∩ wordSet b = ∅ → keyword_overlap_ratio a b = 0)
      ∧ (a = b → wordSet a ≠ ∅ → keyword_overlap_ratio a b = 1) := by
  intro a b
  constructor
  · intro hd
    unfold keyword_overlap_ratio
    by_cases he : wordSet a = ∅ ∨ wordSet b = ∅
    · rw [if_pos he]
    · rw [if_neg he]
      simp only [hd, Finset.card_empty]
      split
      · exact Rat.zero_mkRat _
      · rfl
  · intro hab hne
    subst hab
    unfold keyword_overlap_ratio
    rw [if_neg (by simp [hne]), Finset.inter_self, max_self,
        if_pos (Finset.card_pos.mpr (Finset.nonempty_iff_ne_empty.mpr hne))]
    have hc0 : ((wordSet a).card : ℤ) ≠ 0 := by
      exact_mod_cast
        (Finset.card_pos.mpr (Finset.nonempty_iff_ne_empty.mpr hne)).ne'
    rw [Rat.mkRat_eq_divInt, Rat.divInt_self' hc0]

/-- Concrete instantiation of `keyword_overlap_ratio_spec`: an identical
pair with tokens scores 1, a disjoint pair scores 0. -/
theorem keyword_overlap_ratio_spec_witness :
    keyword_overlap_ratio ("clear DNS cache") ("clear DNS cache") = 1
    ∧ keyword_overlap_ratio ("alpha beta") ("gamma delta") = 0 :=
  ⟨(keyword_overlap_ratio_spec ("clear DNS cache") ("clear DNS cache")).2
     rfl (by decide),
   (keyword_overlap_ratio_spec ("alpha beta") ("gamma delta")).1 (by decide)⟩

/-- Counterexample to claim C8 as stated: the single-space text is
non-empty and identical to itself, yet its overlap with itself is 0.0
(empty token set), not 1.0. -/
theorem keyword_overlap_ratio_counterexample :
    (" " : String) ≠ "" ∧ keyword_overlap_ratio (" ") (" ") = 0 := by decide

/-- Claim C1 (amended): `validate_no_repetition` returns false exactly when
some prior entry's system-authored text has overlap ratio *strictly
greater* than the 0.6 threshold with the new summary (the source compares
with `>`, so an overlap of exactly 0.6 passes, see the counterexample);
every empty history passes, and the two concrete examples of the spec
behave as stated. -/
theorem validate_no_repetition_spec :
    ∀ (new_summary : String) (history : List ContextEntry),
      (validate_no_repetition new_summary history = false ↔
        ∃ e ∈ history,
          keyword_overlap_ratio new_summary e.what_we_said >
            REPETITION_OVERLAP_THRESHOLD)
      ∧ validate_no_repetition new_summary [] = true
      ∧ validate_no_repetition ("Please clear your DNS cache now")
          [dnsHistoryEntry] = false
      ∧ validate_no_repetition ("Check your network adapter settings")
          [dnsHistoryEntry] = true := by
  intro ns h
  refine ⟨?_, rfl, by decide, by decide⟩
  unfold validate_no_repetition
  by_cases he : h = []
  · subst he; simp
  · rw [if_neg he]
    simp [List.all_eq_true]

/-- Concrete instantiation of `validate_no_repetition_spec`: the empty
history passes. -/
theorem validate_no_repetition_spec_witness :
    validate_no_repetition ("anything at all") [] = true :=
  (validate_no_repetition_spec ("anything at all") []).2.1

/-- Counterexample to claim C1 as stated: at overlap exactly 0.6 ("a b c d
e" against prior text "a b c x y": 3 shared tokens of 5) the overlap is at
least the threshold, yet the guard returns true — the code detects
repetition only strictly above 0.6. -/
theorem validate_no_repetition_counterexample :
    keyword_overlap_ratio ("a b c d e") boundaryEntry.what_we_said ≥
      REPETITION_OVERLAP_THRESHOLD
    ∧ validate_no_repetition ("a b c d e") [boundaryEntry] = true := by
  decide

/-- The concrete feedback of claim C2 triggers the frustrated branch for
every prior sentiment ("still not working" and "ridiculous" are frustrated
keywords). -/
theorem detect_sentiment_ridiculous :
    ∀ p : Sentiment,
      detect_sentiment p (some ("still not working, this is ridiculous"))
        = .FRUSTRATED := by
  intro p
  simp only [detect_sentiment]
  rw [if_neg (by decide : ¬ ("still not working, this is ridiculous" : String) = ""),
      if_pos (by decide :
        frustratedMatch (pyLower ("still not working, this is ridiculous")) = true)]

/-- Claim C2 (amended): for every Diagnosed ticket whose
`latest_user_feedback` is "still not working, this is ridiculous",
`process_ticket` computes sentiment = frustrated and tone = empathetic
before invoking the external generation call. (Sentiment is refined from
`latest_user_feedback` only; the same reply sitting only in the context
history does not influence it, see the counterexample.) -/
theorem process_pre_frustrated_feedback :
    ∀ t : TicketState, t.current_phase = Phase.DIAGNOSED →
      t.latest_user_feedback = some ("still not working, this is ridiculous") →
      (process_pre t).sentiment = .FRUSTRATED
      ∧ (process_pre t).tone = .EMPATHETIC := by
  intro t hp hf
  have hs : (process_pre t).sentiment = .FRUSTRATED := by
    show detect_sentiment t.user_sentiment t.latest_user_feedback = _
    rw [hf]
    exact detect_sentiment_ridiculous _
  refine ⟨hs, ?_⟩
  show determine_tone t.current_phase
    (detect_sentiment t.user_sentiment t.latest_user_feedback) = _
  rw [hp, hf, detect_sentiment_ridiculous]
  rfl

/-- Concrete instantiation of `process_pre_frustrated_feedback`. -/
theorem process_pre_frustrated_feedback_witness :
    (process_pre c2TicketAmended).sentiment = .FRUSTRATED
    ∧ (process_pre c2TicketAmended).tone = .EMPATHETIC :=
  process_pre_frustrated_feedback c2TicketAmended rfl rfl

/-- Counterexample to claim C2 as stated: a Diagnosed ticket whose single
history entry carries the reply "still not working, this is ridiculous"
but whose `latest_user_feedback` is None is processed with sentiment
neutral and tone escalation, not frustrated/empathetic. -/
theorem process_pre_history_only_counterexample :
    c2Ticket.current_phase = Phase.DIAGNOSED
    ∧ c2Ticket.context_history.map (fun e => e.what_user_said_back)
        = [("still not working, this is ridiculous")]
    ∧ (process_pre c2Ticket).sentiment = Sentiment.NEUTRAL
    ∧ (process_pre c2Ticket).tone = ToneApplied.ESCALATION
    ∧ Sentiment.NEUTRAL ≠ Sentiment.FRUSTRATED := by
  decide

/-- Distinct sentiments produce distinct `Detected:` context lines. -/
theorem sentiment_line_injective :
    ∀ s u : Sentiment, s ≠ u →
      ("Detected: " ++ s.value) ≠ ("Detected: " ++ u.value) := by
  decide

/-- Claim C10: in every invocation, the context block handed to generation
carries the `Detected:` line of the caller-supplied `user_sentiment`, while
the pipeline's sentiment is the one refined from the latest feedback; when
these differ, the context line and the returned sentiment name different
sentiment values. -/
theorem process_pre_context_reports_input_sentiment :
    ∀ t : TicketState,
      ("Detected: " ++ t.user_sentiment.value) ∈ (process_pre t).parts
      ∧ (process_pre t).sentiment
          = detect_sentiment t.user_sentiment t.latest_user_feedback
      ∧ ((process_pre t).sentiment ≠ t.user_sentiment →
          ("Detected: " ++ (process_pre t).sentiment.value)
            ≠ ("Detected: " ++ t.user_sentiment.value)) := by
  intro t
  refine ⟨?_, rfl, fun hne => sentiment_line_injective _ _ hne⟩
  show ("Detected: " ++ t.user_sentiment.value) ∈
    context_parts t (extract_previous_attempts t.context_history)
  unfold context_parts
  simp [List.mem_append]

/-- Concrete instantiation of
`process_pre_context_reports_input_sentiment`: a neutral-labelled ticket
with frustrated feedback reports "Detected: neutral" to generation while
returning the frustrated sentiment. -/
theorem process_pre_context_sentiment_witness :
    ("Detected: " ++ c2TicketAmended.user_sentiment.value)
      ∈ (process_pre c2TicketAmended).parts
    ∧ ("Detected: " ++ (process_pre c2TicketAmended).sentiment.value)
        ≠ ("Detected: " ++ c2TicketAmended.user_sentiment.value) :=
  ⟨(process_pre_context_reports_input_sentiment c2TicketAmended).1,
   (process_pre_context_reports_input_sentiment c2TicketAmended).2.2
     (by decide)⟩

end TicketGlass
